import Mathlib

/-!
# Verification of the MySQL client demo (`src/sql.cpp`)

Shallow embedding of the orchestration layer of `sql.cpp`: a single MySQL
connection is modelled as explicit state (committed server state, working
uncommitted server state, autocommit flag, last-insert id), every server
round trip is an `Event` recorded in a trace, and a fault oracle decides,
per round trip, whether the server raises an injected error (modelling
network/engine failures such as a failing `COMMIT` or `ROLLBACK`).
Natural errors (duplicate UNIQUE key, missing table, unknown database)
arise from the state itself, mirroring the MySQL engine's behaviour for the
statements the program issues.

`sql::SQLException` is modelled by `SqlError` (message, error code,
SQLState); other C++ exceptions (`std::exception`) by `Err.stdErr`.
`setAutoCommit` is modelled as an infallible connection-state update: the
spec treats it as a pure mode switch, and the claims under verification
quantify over failures of the body statements, commit and rollback only.
-/

set_option linter.unusedVariables false

/-- A row of the `users` table: `age` is a nullable column (`INT NULL`),
so it is an `Option Int`; `NULL` is `none`. -/
structure Row where
  id : Nat
  name : String
  age : Option Int
deriving DecidableEq

/-- The `users` table: its rows plus the `AUTO_INCREMENT` counter. -/
structure TableState where
  rows : List Row
  nextId : Nat
deriving DecidableEq

/-- Server-side state: the set of existing databases (schemas) and, per
schema, the `users` table if it has been created there. -/
structure ServerState where
  schemas : List String
  tables : List (String × TableState)
deriving DecidableEq

/-- Connection state: `committed` is the durable server state, `work` the
state as seen by this connection (they differ only inside an open
transaction); `autocommit` is the connection's autocommit mode,
`activeSchema` the schema selected by `setSchema`/`USE`, `lastInsertId`
the per-connection `LAST_INSERT_ID()` value, and `opCount` counts the
server round trips issued so far (used to index the fault oracle). -/
structure ConnState where
  committed : ServerState
  work : ServerState
  autocommit : Bool
  activeSchema : Option String
  lastInsertId : Nat
  opCount : Nat
deriving DecidableEq

/-- Mirror of `struct User` in `sql.cpp`. -/
structure User where
  id : Nat
  name : String
  age : Int
deriving DecidableEq

/-- Mirror of `struct DbConfig` in `sql.cpp`. -/
structure DbConfig where
  host : String := "tcp://127.0.0.1:3306"
  user : String := "root"
  pass : String := "sinatra1"
  schema : String := "testdb"

/-- Mirror of `sql::SQLException`: message (`what()`), numeric MySQL error
code (`getErrorCode()`), SQLState (`getSQLStateCStr()`). -/
structure SqlError where
  msg : String
  code : Nat
  sqlstate : String
deriving DecidableEq

/-- The two exception taxonomies of the program: database-engine errors
(`sql::SQLException`) and generic runtime errors (`std::exception`). -/
inductive Err where
  | sqlErr : SqlError → Err
  | stdErr : String → Err
deriving DecidableEq

/-- One server round trip issued by the program, recorded in the trace. -/
inductive Event where
  | connect
  | createDb (schema : String)
  | useSchema (schema : String)
  | createUsersTable
  | deleteAllUsers
  | prepare (sqlText : String)
  | execInsert (name : String) (age : Option Int)
  | execUpdate (newAge : Int) (name : String)
  | queryLastInsertId
  | querySelect (minAge : Int)
  | querySelectAll
  | setAutoCommit (b : Bool)
  | commit
  | rollback
deriving DecidableEq

/-- Fault oracle: for each round-trip index, an optional injected failure
raised by the server at that round trip. -/
abbrev Oracle := Nat → Option Err

/-- The fault-free oracle (a healthy server/network). -/
def noFaults : Oracle := fun _ => none

/-- An oracle injects only database errors (`sql::SQLException`),
never generic runtime errors. -/
def sqlOnly (F : Oracle) : Prop :=
  ∀ n e, F n = some e → ∃ s, e = Err.sqlErr s

/-- Outcome of running a program fragment: its result (or the exception it
raised), the final connection state, the trace of round trips attempted,
and the lines printed to stdout and stderr. -/
structure DbOutcome (α : Type) where
  res : Except Err α
  conn : ConnState
  trace : List Event
  out : List String
  err : List String

/-- A program fragment: given the fault oracle and the connection state,
produce an outcome. -/
abbrev DbM (α : Type) : Type := Oracle → ConnState → DbOutcome α

def DbM.pure (a : α) : DbM α := fun _ c => ⟨.ok a, c, [], [], []⟩

def DbM.bind (m : DbM α) (f : α → DbM β) : DbM β := fun F c =>
  let o := m F c
  match o.res with
  | .ok a =>
    let o2 := f a F o.conn
    ⟨o2.res, o2.conn, o.trace ++ o2.trace, o.out ++ o2.out, o.err ++ o2.err⟩
  | .error e => ⟨.error e, o.conn, o.trace, o.out, o.err⟩

instance instMonadDbM : Monad DbM where
  pure := DbM.pure
  bind := DbM.bind

/-- Model of `try { m } catch (const sql::SQLException& e) { h e }`: only database
errors are caught; generic runtime errors propagate. -/
def tryCatchSql (m : DbM α) (h : SqlError → DbM α) : DbM α := fun F c =>
  let o := m F c
  match o.res with
  | .ok a => ⟨.ok a, o.conn, o.trace, o.out, o.err⟩
  | .error (.sqlErr e) =>
    let o2 := h e F o.conn
    ⟨o2.res, o2.conn, o.trace ++ o2.trace, o.out ++ o2.out, o.err ++ o2.err⟩
  | .error (.stdErr s) => ⟨.error (.stdErr s), o.conn, o.trace, o.out, o.err⟩

/-- Model of `try { m } catch (...) { h }`: catches every exception. -/
def tryCatchAll (m : DbM α) (h : Err → DbM α) : DbM α := fun F c =>
  let o := m F c
  match o.res with
  | .ok a => ⟨.ok a, o.conn, o.trace, o.out, o.err⟩
  | .error e =>
    let o2 := h e F o.conn
    ⟨o2.res, o2.conn, o.trace ++ o2.trace, o.out ++ o2.out, o.err ++ o2.err⟩

/-- Model of `throw e` (C++ `throw` / rethrow). -/
def throwDb (e : Err) : DbM α := fun _ c => ⟨.error e, c, [], [], []⟩

/-- Model of `std::cout << s`. -/
def printOut (s : String) : DbM Unit := fun _ c => ⟨.ok (), c, [], [s], []⟩

/-- Model of `std::cerr << s`. -/
def printErr (s : String) : DbM Unit := fun _ c => ⟨.ok (), c, [], [], [s]⟩

/-- A server round trip: event `ev` is recorded and the round-trip counter
advances; the fault oracle may make the server raise an injected error;
otherwise `act` gives the statement's engine semantics (which may itself
raise a database error, e.g. a duplicate-key violation). -/
def primOp (ev : Event) (act : ConnState → Except SqlError (α × ConnState)) : DbM α :=
  fun F c =>
    match F c.opCount with
    | some e => ⟨.error e, { c with opCount := c.opCount + 1 }, [ev], [], []⟩
    | none =>
      match act { c with opCount := c.opCount + 1 } with
      | .ok (a, c2) => ⟨.ok a, c2, [ev], [], []⟩
      | .error e =>
        ⟨.error (.sqlErr e), { c with opCount := c.opCount + 1 }, [ev], [], []⟩

/-- Model of `con->setAutoCommit(b)`: an infallible mode switch. -/
def setAutoCommitOp (b : Bool) : DbM Unit :=
  fun _ c => ⟨.ok (), { c with autocommit := b }, [.setAutoCommit b], [], []⟩

/-! ## Engine semantics of the individual statements -/

/-- MySQL error 1062 (`ER_DUP_ENTRY`), raised by the `UNIQUE KEY
uq_users_name` constraint. -/
def dupKeyErr (n : String) : SqlError :=
  ⟨"Duplicate entry " ++ n ++ " for key uq_users_name", 1062, "23000"⟩

/-- MySQL error 1146 (`ER_NO_SUCH_TABLE`). -/
def noTableErr : SqlError := ⟨"Table users does not exist", 1146, "42S02"⟩

/-- MySQL error 1046 (`ER_NO_DB_ERROR`). -/
def noSchemaErr : SqlError := ⟨"No database selected", 1046, "3D000"⟩

/-- MySQL error 1049 (`ER_BAD_DB_ERROR`), raised by `USE`/`setSchema`. -/
def unknownDbErr (s : String) : SqlError :=
  ⟨"Unknown database " ++ s, 1049, "42000"⟩

/-- MySQL error 1102 (`ER_WRONG_DB_NAME`) for an empty database name. -/
def emptyDbNameErr : SqlError := ⟨"Incorrect database name", 1102, "42000"⟩

/-- Look up the `users` table of schema `s`. -/
def getTable (st : ServerState) (s : String) : Option TableState :=
  (st.tables.find? (fun p => p.1 == s)).map (fun p => p.2)

/-- Replace the `users` table of schema `s`. -/
def setTable (st : ServerState) (s : String) (t : TableState) : ServerState :=
  { st with tables := st.tables.map (fun p => if p.1 == s then (s, t) else p) }

/-- The table a DML statement acts on: requires a selected schema
(else error 1046) in which the `users` table exists (else error 1146).
DML reads the connection's working (transaction-visible) state. -/
def currentTable (c : ConnState) : Except SqlError (String × TableState) :=
  match c.activeSchema with
  | none => .error noSchemaErr
  | some s =>
    match getTable c.work s with
    | none => .error noTableErr
    | some t => .ok (s, t)

/-- Effect of a DML statement: the new table contents go to the working
state; with autocommit enabled the statement is committed immediately. -/
def applyDml (c : ConnState) (s : String) (t : TableState) : ConnState :=
  let w := setTable c.work s t
  { c with work := w, committed := if c.autocommit then w else c.committed }

/-- Effect of a DDL statement: in MySQL, DDL commits implicitly, so it is
applied to both the working and the committed state. -/
def applyDdl (c : ConnState) (f : ServerState → ServerState) : ConnState :=
  { c with work := f c.work, committed := f c.committed }

/-- Model of `driver->connect(host, user, pass)`: one round trip; connection
failures (bad credentials, unreachable host) come from the fault oracle. -/
def connectOp : DbM Unit := primOp .connect (fun c => .ok ((), c))

/-- Statement `CREATE DATABASE IF NOT EXISTS s`: no-op when the schema exists. -/
def createDbOp (s : String) : DbM Unit :=
  primOp (.createDb s) fun c =>
    if s = "" then .error emptyDbNameErr
    else if s ∈ c.work.schemas then .ok ((), c)
    else .ok ((), applyDdl c (fun st => { st with schemas := st.schemas ++ [s] }))

/-- Model of `con->setSchema(s)`: selects an existing schema. -/
def setSchemaOp (s : String) : DbM Unit :=
  primOp (.useSchema s) fun c =>
    if s ∈ c.work.schemas then .ok ((), { c with activeSchema := some s })
    else .error (unknownDbErr s)

/-- Statement `CREATE TABLE IF NOT EXISTS users (...)`: creates an empty table with
`AUTO_INCREMENT` starting at 1 in the active schema; a no-op when the
table already exists (it never drops or alters existing data). -/
def createTableOp : DbM Unit :=
  primOp .createUsersTable fun c =>
    match c.activeSchema with
    | none => .error noSchemaErr
    | some s =>
      match getTable c.work s with
      | some _ => .ok ((), c)
      | none => .ok ((), applyDdl c (fun st => { st with tables := st.tables ++ [(s, ⟨[], 1⟩)] }))

/-- Statement `DELETE FROM users` (step 4 of `main`): removes all rows; the
`AUTO_INCREMENT` counter is not reset. -/
def deleteAllUsersOp : DbM Unit :=
  primOp .deleteAllUsers fun c =>
    match currentTable c with
    | .error e => .error e
    | .ok (s, t) => .ok ((), applyDml c s ⟨[], t.nextId⟩)

/-- Model of `con->prepareStatement(sqlText)`: compiles a statement (one round trip,
no state effect). -/
def prepareOp (sqlText : String) : DbM Unit :=
  primOp (.prepare sqlText) (fun c => .ok ((), c))

/-- Execution (`executeUpdate`) of `INSERT INTO users(name, age) VALUES(?, ?)` with the
bound parameters: rejects a duplicate name (error 1062), otherwise appends
the row with the next `AUTO_INCREMENT` id and sets the connection's
`LAST_INSERT_ID()` to that id. -/
def execInsertOp (name : String) (age : Option Int) : DbM Unit :=
  primOp (.execInsert name age) fun c =>
    match currentTable c with
    | .error e => .error e
    | .ok (s, t) =>
      if t.rows.any (fun r => r.name == name) then .error (dupKeyErr name)
      else
        let t2 : TableState := ⟨t.rows ++ [⟨t.nextId, name, age⟩], t.nextId + 1⟩
        .ok ((), { applyDml c s t2 with lastInsertId := t.nextId })

/-- Execution (`executeUpdate`) of `UPDATE users SET age = ? WHERE name = ?`: sets the
age (as an integer — never as NULL) of every row with the given name and
returns the affected-row count (the spec's matched-row count). -/
def execUpdateOp (newAge : Int) (name : String) : DbM Nat :=
  primOp (.execUpdate newAge name) fun c =>
    match currentTable c with
    | .error e => .error e
    | .ok (s, t) =>
      let matched := (t.rows.filter (fun r => r.name == name)).length
      let rows2 := t.rows.map (fun r => if r.name == name then { r with age := some newAge } else r)
      .ok (matched, applyDml c s ⟨rows2, t.nextId⟩)

/-- Query `SELECT LAST_INSERT_ID()`: always yields exactly one
row holding the connection's last generated id. -/
def queryLastIdOp : DbM (List Nat) :=
  primOp .queryLastInsertId (fun c => .ok ([c.lastInsertId], c))

/-- SQL comparison `age >= minAge` under three-valued logic: a row whose
`age` is `NULL` does not satisfy the predicate. -/
def rowMatchesMinAge (minAge : Int) (r : Row) : Bool :=
  match r.age with
  | none => false
  | some a => minAge ≤ a

/-- Ordering `ORDER BY age DESC, id ASC` as a relation on rows: `r` precedes `s`
when `r`-s age is larger, or the ages are equal and `r`-s id is not
larger. `NULL` sorts below every integer (so it would come last under
`DESC`). -/
def ageLtB : Option Int → Option Int → Bool
  | none, some _ => true
  | some a, some b => a < b
  | _, _ => false

def rowLE (r s : Row) : Prop :=
  ageLtB s.age r.age = true ∨ (s.age = r.age ∧ r.id ≤ s.id)

instance : DecidableRel rowLE := fun r s => by
  unfold rowLE; infer_instance

/-- Ordering `ORDER BY id` (ascending) for the final unfiltered SELECT of `main`. -/
def rowIdLE (r s : Row) : Prop := r.id ≤ s.id

instance : DecidableRel rowIdLE := fun r s => by
  unfold rowIdLE; infer_instance

/-- Execution (`executeQuery`) of
`SELECT id, name, age FROM users WHERE age >= ? ORDER BY age DESC, id ASC`:
the rows passing the filter, in the requested order. -/
def querySelectOp (minAge : Int) : DbM (List Row) :=
  primOp (.querySelect minAge) fun c =>
    match currentTable c with
    | .error e => .error e
    | .ok (_, t) => .ok (List.insertionSort rowLE (t.rows.filter (rowMatchesMinAge minAge)), c)

/-- Query `SELECT id, name, age FROM users ORDER BY id`
(step 9 of `main`). -/
def querySelectAllOp : DbM (List Row) :=
  primOp .querySelectAll fun c =>
    match currentTable c with
    | .error e => .error e
    | .ok (_, t) => .ok (List.insertionSort rowIdLE t.rows, c)

/-- Model of `con->commit()`: makes the working state durable. -/
def commitOp : DbM Unit :=
  primOp .commit (fun c => .ok ((), { c with committed := c.work }))

/-- Model of `con->rollback()`: discards the uncommitted working state. -/
def rollbackOp : DbM Unit :=
  primOp .rollback (fun c => .ok ((), { c with work := c.committed }))

/-! ## The source functions of `sql.cpp` -/

/-- The SQL text of the parameterized insert (used by `insertUser` and
`insertUsersBulk`). -/
def insertSql : String := "INSERT INTO users(name, age) VALUES(?, ?)"

/-- The SQL text of the parameterized update. -/
def updateSql : String := "UPDATE users SET age = ? WHERE name = ?"

/-- The SQL text of the parameterized filtered select. -/
def selectSql : String :=
  "SELECT id, name, age FROM users WHERE age >= ? ORDER BY age DESC, id ASC"

/-- The binding convention of `sql.cpp` for the `age` parameter:
`if (u.age == 0) ps->setNull(2, 0); else ps->setInt(2, u.age);` —
age 0 is bound as SQL `NULL`, any other age as the integer itself. -/
def bindAge (age : Int) : Option Int := if age = 0 then none else some age

/-- Mirror of `if (r->next()) return r->getInt(1); return 0;` — the first value of
the `LAST_INSERT_ID()` result set, or 0 when the result set is empty. -/
def lastIdFromRows : List Nat → Nat
  | [] => 0
  | r :: _ => r

/-- Mirror of `rs->isNull("age") ? 0 : rs->getInt("age")` — how `getUsersByMinAge`
materializes a result row into a `User`: a stored `NULL` age surfaces as
the sentinel 0. -/
def rowToUser (r : Row) : User := ⟨r.id, r.name, r.age.getD 0⟩

/-- The single stderr line emitted by `printSqlError` of `sql.cpp`. -/
def sqlErrorLine (e : SqlError) (loc : String) : String :=
  "[SQL ERROR @ " ++ loc ++ "] " ++ e.msg ++ " | MySQL error code: " ++
    toString e.code ++ " | SQLState: " ++ e.sqlstate

/-- Mirror of `printSqlError(e, loc)` of `sql.cpp`. -/
def printSqlError (e : SqlError) (loc : String) : DbM Unit :=
  printErr (sqlErrorLine e loc)

/-- Mirror of `ensureSchemaAndTables(con, schema)` of `sql.cpp`. -/
def ensureSchemaAndTables (schema : String) : DbM Unit := do
  createDbOp schema
  setSchemaOp schema
  createTableOp

/-- Mirror of `insertUser(con, u)` of `sql.cpp`. -/
def insertUser (u : User) : DbM Nat := do
  prepareOp insertSql
  execInsertOp u.name (bindAge u.age)
  let rows ← queryLastIdOp
  pure (lastIdFromRows rows)

/-- The `for (const auto& u : users)` loop body of `insertUsersBulk`. -/
def bulkLoop : List User → DbM Unit
  | [] => pure ()
  | u :: rest => do
    execInsertOp u.name (bindAge u.age)
    bulkLoop rest

/-- Mirror of `insertUsersBulk(con, users)` of `sql.cpp`. -/
def insertUsersBulk (users : List User) : DbM Unit := do
  prepareOp insertSql
  bulkLoop users

/-- Mirror of `updateUserAgeByName(con, name, newAge)` of `sql.cpp`. -/
def updateUserAgeByName (name : String) (newAge : Int) : DbM Nat := do
  prepareOp updateSql
  execUpdateOp newAge name

/-- Mirror of `getUsersByMinAge(con, minAge)` of `sql.cpp`. -/
def getUsersByMinAge (minAge : Int) : DbM (List User) := do
  prepareOp selectSql
  let rows ← querySelectOp minAge
  pure (rows.map rowToUser)

/-- The `try` block of `demoTransaction`. -/
def demoTxnBody : DbM Unit := do
  insertUsersBulk [⟨0, "alice", 24⟩, ⟨0, "bob", 29⟩]
  let changed ← updateUserAgeByName "alice" 25
  printOut ("Rows updated: " ++ toString changed)
  commitOp
  setAutoCommitOp true
  printOut "Transaction committed."

/-- The `catch (const sql::SQLException& e)` block of `demoTransaction`. -/
def demoTxnHandler (e : SqlError) : DbM Unit := do
  printSqlError e "demoTransaction"
  tryCatchSql
    (do rollbackOp
        printErr "Transaction rolled back.")
    (fun e2 => printSqlError e2 "rollback")
  setAutoCommitOp true
  throwDb (.sqlErr e)

/-- Mirror of `demoTransaction(con)` of `sql.cpp`. -/
def demoTransaction : DbM Unit := do
  setAutoCommitOp false
  tryCatchSql demoTxnBody demoTxnHandler

/-! ## The top-level driver (`main`) -/

/-- The configuration instance constructed at the top of `main`. -/
def cfg : DbConfig := {}

/-- Step 7's output loop: one line per user, a stored sentinel age 0
printed as -1 (`u.age == 0 ? -1 : u.age`). -/
def printUsersLoop : List User → DbM Unit
  | [] => pure ()
  | u :: rest => do
    printOut (toString u.id ++ " " ++ u.name ++ " " ++
      toString (if u.age = 0 then (-1 : Int) else u.age))
    printUsersLoop rest

/-- Step 9's output loop: one line per raw row, a stored `NULL` age
printed as -1 (`rs->isNull("age") ? -1 : rs->getInt("age")`). -/
def printRowsLoop : List Row → DbM Unit
  | [] => pure ()
  | r :: rest => do
    printOut ("ID=" ++ toString r.id ++ " | name=" ++ r.name ++ " | age=" ++
      toString (r.age.getD (-1)))
    printRowsLoop rest

/-- The `try` block of `main`: steps 1-9 of `sql.cpp`. -/
def mainBody : DbM Unit := do
  connectOp
  ensureSchemaAndTables cfg.schema
  deleteAllUsersOp
  let newId ← insertUser ⟨0, "carol", 32⟩
  printOut ("Inserted carol with id = " ++ toString newId)
  tryCatchAll (do demoTransaction)
    (fun _ => printErr "Transaction demo failed (rolled back).")
  let results ← getUsersByMinAge 25
  printOut "Users with age >= 25:"
  printUsersLoop results
  let affected ← updateUserAgeByName "bob" 31
  printOut ("Updated rows (bob -> 31): " ++ toString affected)
  let finalRows ← querySelectAllOp
  printOut "Final users:"
  printRowsLoop finalRows

/-- The connection state right after `driver->connect`: the server's
durable state is whatever it is, nothing uncommitted, autocommit on
(MySQL's default), no schema selected yet. -/
def connOf (srv : ServerState) : ConnState :=
  ⟨srv, srv, true, none, 0, 0⟩

/-- What `main` produces: the process exit code and the two streams. -/
structure MainResult where
  exitCode : Nat
  out : List String
  err : List String
deriving DecidableEq

/-- Mirror of `main()` of `sql.cpp` against a server whose initial durable state is
`srv`: runs the body; a database error escaping the body is printed via
`printSqlError(e, "main")` and mapped to exit code 1; a generic runtime
error is printed as `[STD ERROR] ...` and mapped to exit code 1;
otherwise the exit code is 0. -/
def mainRun (F : Oracle) (srv : ServerState) : MainResult :=
  let o := mainBody F (connOf srv)
  match o.res with
  | .ok _ => ⟨0, o.out, o.err⟩
  | .error (.sqlErr e) => ⟨1, o.out, o.err ++ [sqlErrorLine e "main"]⟩
  | .error (.stdErr m) => ⟨1, o.out, o.err ++ ["[STD ERROR] " ++ m]⟩

/-- A fresh server with no databases yet. -/
def initialServer : ServerState := ⟨[], []⟩

/-! ## Proof infrastructure -/

theorem bind_eq (m : DbM α) (f : α → DbM β) : m >>= f = DbM.bind m f := rfl

theorem pure_eq (a : α) : (pure a : DbM α) = DbM.pure a := rfl

/-- Inverting a successful `bind`. -/
theorem DbM.bind_ok {m : DbM α} {f : α → DbM β} {F : Oracle} {c : ConnState} {b : β}
    (h : (DbM.bind m f F c).res = .ok b) :
    ∃ a, (m F c).res = .ok a ∧ (f a F (m F c).conn).res = .ok b ∧
      (DbM.bind m f F c).conn = (f a F (m F c).conn).conn ∧
      (DbM.bind m f F c).trace = (m F c).trace ++ (f a F (m F c).conn).trace := by
  rcases hm : m F c with ⟨res, c1, t1, u1, e1⟩
  cases res with
  | ok a =>
    refine ⟨a, rfl, ?_, ?_, ?_⟩ <;>
      simp only [DbM.bind, hm] at h ⊢ <;> simp_all
  | error e => simp [DbM.bind, hm] at h

/-- A `primOp` records exactly its event. -/
theorem primOp_trace (ev : Event) (act : ConnState → Except SqlError (α × ConnState))
    (F : Oracle) (c : ConnState) : (primOp ev act F c).trace = [ev] := by
  unfold primOp
  rcases F c.opCount with _ | e
  · rcases act { c with opCount := c.opCount + 1 } with e | ⟨a, c2⟩ <;> rfl
  · rfl

/-- Inverting a successful `primOp`. -/
theorem primOp_ok {ev : Event} {act : ConnState → Except SqlError (α × ConnState)}
    {F : Oracle} {c : ConnState} {a : α}
    (h : (primOp ev act F c).res = .ok a) :
    F c.opCount = none ∧
      ∃ c2, act { c with opCount := c.opCount + 1 } = .ok (a, c2) ∧
        (primOp ev act F c).conn = c2 := by
  unfold primOp at *
  cases hF : F c.opCount with
  | some e => simp [hF] at h
  | none =>
    simp only [hF] at h ⊢
    refine ⟨trivial, ?_⟩
    rcases hact : act { c with opCount := c.opCount + 1 } with e | ⟨a2, c2⟩ <;>
      simp only [hact] at h ⊢
    · cases h
    · cases h
      exact ⟨c2, rfl, rfl⟩

/-- Predicate: `m` never raises a generic runtime error when the oracle injects only
database errors. -/
def noStdM (m : DbM α) : Prop :=
  ∀ F c s, sqlOnly F → (m F c).res ≠ .error (.stdErr s)

theorem noStdM_primOp (ev : Event) (act : ConnState → Except SqlError (α × ConnState)) :
    noStdM (primOp ev act) := by
  intro F c s hF
  unfold primOp
  cases hFc : F c.opCount with
  | some e =>
    obtain ⟨s', rfl⟩ := hF _ _ hFc
    simp
  | none =>
    rcases hact : act { c with opCount := c.opCount + 1 } with e | ⟨a2, c2⟩ <;>
      simp [hact]

theorem noStdM_pure (a : α) : noStdM (DbM.pure a) := by
  intro F c s hF
  simp [DbM.pure]

theorem noStdM_printOut (s : String) : noStdM (printOut s) := by
  intro F c s' hF
  simp [printOut]

theorem noStdM_printErr (s : String) : noStdM (printErr s) := by
  intro F c s' hF
  simp [printErr]

theorem noStdM_printSqlError (e : SqlError) (loc : String) :
    noStdM (printSqlError e loc) := by
  intro F c s hF
  simp [printSqlError, printErr]

theorem noStdM_setAutoCommit (b : Bool) : noStdM (setAutoCommitOp b) := by
  intro F c s hF
  simp [setAutoCommitOp]

theorem noStdM_throwSql (e : SqlError) : noStdM (@throwDb α (.sqlErr e)) := by
  intro F c s hF
  simp [throwDb]

theorem noStdM_bind {m : DbM α} {f : α → DbM β}
    (hm : noStdM m) (hf : ∀ a, noStdM (f a)) : noStdM (DbM.bind m f) := by
  intro F c s hF
  rcases hmc : m F c with ⟨res, c1, t1, u1, e1⟩
  cases res with
  | ok a =>
    have := hf a F c1 s hF
    rcases hfc : f a F c1 with ⟨res2, c2, t2, u2, e2⟩
    cases res2 with
    | ok b => simp [DbM.bind, hmc, hfc]
    | error e =>
      simp [DbM.bind, hmc, hfc]
      intro he
      subst he
      exact this (by simp [hfc])
  | error e =>
    have := hm F c s hF
    simp [DbM.bind, hmc]
    intro he
    subst he
    exact this (by simp [hmc])

theorem noStdM_bulkLoop (us : List User) : noStdM (bulkLoop us) := by
  induction us with
  | nil => exact noStdM_pure ()
  | cons u rest ih =>
    exact noStdM_bind (noStdM_primOp _ _) (fun _ => ih)

theorem noStdM_insertUsersBulk (us : List User) : noStdM (insertUsersBulk us) :=
  noStdM_bind (noStdM_primOp _ _) (fun _ => noStdM_bulkLoop us)

theorem noStdM_updateUserAgeByName (n : String) (a : Int) :
    noStdM (updateUserAgeByName n a) :=
  noStdM_bind (noStdM_primOp _ _) (fun _ => noStdM_primOp _ _)

theorem noStdM_demoTxnBody : noStdM demoTxnBody :=
  noStdM_bind (noStdM_insertUsersBulk _) fun _ =>
    noStdM_bind (noStdM_updateUserAgeByName _ _) fun changed =>
      noStdM_bind (noStdM_printOut _) fun _ =>
        noStdM_bind (noStdM_primOp _ _) fun _ =>
          noStdM_bind (noStdM_setAutoCommit _) fun _ => noStdM_printOut _

theorem noStdM_tryCatchSql {m : DbM α} {h : SqlError → DbM α}
    (hm : noStdM m) (hh : ∀ e, noStdM (h e)) : noStdM (tryCatchSql m h) := by
  intro F c s hF
  rcases hmc : m F c with ⟨res, c1, t1, u1, e1⟩
  cases res with
  | ok a => simp [tryCatchSql, hmc]
  | error e =>
    cases e with
    | sqlErr e =>
      have := hh e F c1 s hF
      rcases hhc : h e F c1 with ⟨res2, c2, t2, u2, e2⟩
      cases res2 with
      | ok b => simp [tryCatchSql, hmc, hhc]
      | error e2 =>
        simp [tryCatchSql, hmc, hhc]
        intro he
        subst he
        exact this (by simp [hhc])
    | stdErr s2 =>
      have := hm F c s2 hF
      simp [tryCatchSql, hmc]
      exact fun he => absurd (by simp [hmc, he] : (m F c).res = .error (.stdErr s2)) this

/-! ### Autocommit restoration (infrastructure for the coordinator) -/

/-- When `m` terminates normally, the connection it leaves behind has
autocommit enabled. -/
def acOnOk (m : DbM α) : Prop :=
  ∀ F c a, (m F c).res = .ok a → (m F c).conn.autocommit = true

/-- Lifting of `acOnOk` over any prefix: if every continuation restores
autocommit on success, so does the composite. -/
theorem acOnOk_bind {m : DbM α} {f : α → DbM β}
    (hf : ∀ a, acOnOk (f a)) : acOnOk (DbM.bind m f) := by
  intro F c b h
  obtain ⟨a, hm, hfr, hconn, -⟩ := DbM.bind_ok h
  rw [hconn]
  exact hf a F (m F c).conn b hfr

/-- The tail of the coordinator's success path: `setAutoCommit(true)`
followed by a print leaves autocommit enabled. -/
theorem acOnOk_commit_tail (s : String) :
    acOnOk (DbM.bind (setAutoCommitOp true) (fun _ => printOut s)) := by
  intro F c a h
  simp [DbM.bind, setAutoCommitOp, printOut]

/-- If the `try` block of `demoTransaction` completes, it has already
re-enabled autocommit (its last two statements are
`con->setAutoCommit(true)` and a print). -/
theorem acOnOk_demoTxnBody : acOnOk demoTxnBody := by
  unfold demoTxnBody
  simp only [bind_eq]
  apply acOnOk_bind; intro _
  apply acOnOk_bind; intro changed
  apply acOnOk_bind; intro _
  apply acOnOk_bind; intro _
  exact acOnOk_commit_tail _

/-- Behaviour of the `catch` block of `demoTransaction` under an oracle
that injects only database errors: it always leaves autocommit enabled
and re-raises the original error; it issues a rollback; it reports the
original error tagged `demoTransaction`; when the rollback round trip
succeeds it confirms the rollback, and when the rollback round trip
fails with a database error it reports that failure tagged `rollback`
(without replacing the re-raised original error). -/
theorem demoTxnHandler_spec (e : SqlError) (F : Oracle) (c : ConnState)
    (hF : sqlOnly F) :
    ((demoTxnHandler e) F c).conn.autocommit = true ∧
    ((demoTxnHandler e) F c).res = .error (.sqlErr e) ∧
    Event.rollback ∈ ((demoTxnHandler e) F c).trace ∧
    sqlErrorLine e "demoTransaction" ∈ ((demoTxnHandler e) F c).err ∧
    (F c.opCount = none →
      "Transaction rolled back." ∈ ((demoTxnHandler e) F c).err) ∧
    (∀ e2, F c.opCount = some (.sqlErr e2) →
      sqlErrorLine e2 "rollback" ∈ ((demoTxnHandler e) F c).err) := by
  rcases hF' : F c.opCount with _ | e'
  · simp [demoTxnHandler, printSqlError, printErr, setAutoCommitOp, throwDb,
      tryCatchSql, rollbackOp, primOp, bind_eq, DbM.bind, hF']
  · obtain ⟨s, rfl⟩ := hF _ _ hF'
    simp [demoTxnHandler, printSqlError, printErr, setAutoCommitOp, throwDb,
      tryCatchSql, rollbackOp, primOp, bind_eq, DbM.bind, hF']

/-- Decomposition of `demoTransaction`: it disables autocommit and then
runs the `try` block guarded by the `catch` block. -/
theorem demoTransaction_unfold (F : Oracle) (c : ConnState) :
    demoTransaction F c =
      ⟨(tryCatchSql demoTxnBody demoTxnHandler F { c with autocommit := false }).res,
       (tryCatchSql demoTxnBody demoTxnHandler F { c with autocommit := false }).conn,
       Event.setAutoCommit false ::
         (tryCatchSql demoTxnBody demoTxnHandler F { c with autocommit := false }).trace,
       (tryCatchSql demoTxnBody demoTxnHandler F { c with autocommit := false }).out,
       (tryCatchSql demoTxnBody demoTxnHandler F { c with autocommit := false }).err⟩ := by
  show DbM.bind (setAutoCommitOp false)
      (fun _ => tryCatchSql demoTxnBody demoTxnHandler) F c = _
  rcases h : tryCatchSql demoTxnBody demoTxnHandler F { c with autocommit := false } with
    ⟨res, c1, t1, u1, e1⟩
  simp [DbM.bind, setAutoCommitOp, h]

/-! ## Claim theorems -/

/-- Claim C1: For every invocation of the transaction coordinator
(`demoTransaction`), over every initial connection state and every fault
oracle that injects only database errors — so the body calls may all
succeed, or any of them may raise a database error, and the rollback
attempt on the error path may itself raise — autocommit is enabled on the
connection the coordinator leaves behind, whether it returns normally or
re-raises. -/
theorem demoTransaction_always_restores_autocommit (F : Oracle) (c : ConnState)
    (hF : sqlOnly F) : (demoTransaction F c).conn.autocommit = true := by
  rw [demoTransaction_unfold]
  rcases hb : demoTxnBody F { c with autocommit := false } with ⟨res, c1, t1, u1, e1⟩
  cases res with
  | ok a =>
    simp only [tryCatchSql, hb]
    have := acOnOk_demoTxnBody F { c with autocommit := false } a (by rw [hb])
    rw [hb] at this
    exact this
  | error e =>
    cases e with
    | sqlErr e =>
      simp only [tryCatchSql, hb]
      exact (demoTxnHandler_spec e F c1 hF).1
    | stdErr s =>
      exact absurd (by rw [hb] : (demoTxnBody F { c with autocommit := false }).res = .error (.stdErr s))
        (noStdM_demoTxnBody F { c with autocommit := false } s hF)

/-- Concrete connection state used by several witnesses: schema `testdb`
exists and contains a `users` table holding one row, (1, alice, 30). -/
def witnessConn : ConnState :=
  ⟨⟨["testdb"], [("testdb", ⟨[⟨1, "alice", some 30⟩], 2⟩)]⟩,
   ⟨["testdb"], [("testdb", ⟨[⟨1, "alice", some 30⟩], 2⟩)]⟩,
   true, some "testdb", 0, 0⟩

/-- Witness for C1 at a concrete state and the fault-free oracle. -/
theorem demoTransaction_always_restores_autocommit_witness :
    (demoTransaction noFaults witnessConn).conn.autocommit = true :=
  demoTransaction_always_restores_autocommit noFaults witnessConn
    (by intro n e h; simp [noFaults] at h)

/-- A fault oracle that fails the third round trip (which, when the
coordinator's bulk insert fails at its first record, is the rollback)
with a database error, and lets everything else through. -/
def rollbackFault : Oracle :=
  fun n => if n = 2 then some (.sqlErr ⟨"Lost connection during rollback", 2013, "HY000"⟩)
           else none

theorem rollbackFault_sqlOnly : sqlOnly rollbackFault := by
  intro n e h
  unfold rollbackFault at h
  split at h
  · cases h
    exact ⟨_, rfl⟩
  · cases h

/-- Claim C3: If the `try` block of the transaction coordinator fails with a
database error `e`, the coordinator: re-raises exactly `e` to its caller
(never the rollback's error), issues a rollback round trip, reports `e`
tagged `demoTransaction` on the error stream, leaves autocommit enabled,
confirms the rollback when its round trip succeeds, and, when the rollback
round trip itself fails with a database error `e2`, additionally reports
`e2` tagged `rollback` — separately, without replacing the re-raised
original error `e`. -/
theorem demoTransaction_error_path_spec (F : Oracle) (c : ConnState) (e : SqlError)
    (hF : sqlOnly F)
    (hb : (demoTxnBody F { c with autocommit := false }).res = .error (.sqlErr e)) :
    (demoTransaction F c).res = .error (.sqlErr e) ∧
    Event.rollback ∈ (demoTransaction F c).trace ∧
    sqlErrorLine e "demoTransaction" ∈ (demoTransaction F c).err ∧
    (demoTransaction F c).conn.autocommit = true ∧
    (F (demoTxnBody F { c with autocommit := false }).conn.opCount = none →
      "Transaction rolled back." ∈ (demoTransaction F c).err) ∧
    (∀ e2, F (demoTxnBody F { c with autocommit := false }).conn.opCount =
        some (.sqlErr e2) →
      sqlErrorLine e2 "rollback" ∈ (demoTransaction F c).err) := by
  rw [demoTransaction_unfold]
  rcases hbf : demoTxnBody F { c with autocommit := false } with ⟨res, c1, t1, u1, e1⟩
  rw [hbf] at hb
  simp only at hb
  subst hb
  obtain ⟨hac, hres, htr, herr, hok, hfail⟩ := demoTxnHandler_spec e F c1 hF
  simp only [tryCatchSql, hbf]
  refine ⟨hres, ?_, ?_, hac, ?_, ?_⟩
  · simp only [List.mem_cons, List.mem_append]
    exact Or.inr (Or.inr htr)
  · simp only [List.mem_append]
    exact Or.inr herr
  · intro h0
    simp only [List.mem_append]
    exact Or.inr (hok h0)
  · intro e2 h2
    simp only [List.mem_append]
    exact Or.inr (hfail e2 h2)

/-- Witness for C3: starting from `witnessConn` (where `alice` already
exists) the coordinator's bulk insert violates the unique-name key, and
`rollbackFault` then makes the rollback itself fail; the original
duplicate-key error is re-raised, the rollback failure is reported
separately, and autocommit ends enabled. -/
theorem demoTransaction_error_path_spec_witness :
    (demoTransaction rollbackFault witnessConn).res =
      .error (.sqlErr (dupKeyErr "alice")) ∧
    sqlErrorLine ⟨"Lost connection during rollback", 2013, "HY000"⟩ "rollback" ∈
      (demoTransaction rollbackFault witnessConn).err ∧
    (demoTransaction rollbackFault witnessConn).conn.autocommit = true := by
  obtain ⟨h1, h2, h3, h4, h5, h6⟩ :=
    demoTransaction_error_path_spec rollbackFault witnessConn (dupKeyErr "alice")
      rollbackFault_sqlOnly (by rfl)
  exact ⟨h1, h6 _ (by rfl), h4⟩

theorem prepareOp_trace (s : String) (F : Oracle) (c : ConnState) :
    (prepareOp s F c).trace = [.prepare s] := primOp_trace _ _ F c

theorem execInsertOp_trace (n : String) (a : Option Int) (F : Oracle) (c : ConnState) :
    (execInsertOp n a F c).trace = [.execInsert n a] := primOp_trace _ _ F c

theorem execUpdateOp_trace (a : Int) (n : String) (F : Oracle) (c : ConnState) :
    (execUpdateOp a n F c).trace = [.execUpdate a n] := primOp_trace _ _ F c

theorem queryLastIdOp_trace (F : Oracle) (c : ConnState) :
    (queryLastIdOp F c).trace = [.queryLastInsertId] := primOp_trace _ _ F c

theorem querySelectOp_trace (m : Int) (F : Oracle) (c : ConnState) :
    (querySelectOp m F c).trace = [.querySelect m] := primOp_trace _ _ F c

/-- Claim C4: On every successful run, `insertUser` performs exactly: one
statement compilation, one execution of the parameterized insert whose
age parameter is bound as NULL exactly when the input age is 0 (and as
the integer age otherwise), and one follow-up read of
`LAST_INSERT_ID()` on the same connection; the value it returns is that
connection's last generated identifier; and its fallback for an empty
follow-up result set is 0. -/
theorem insertUser_spec (F : Oracle) (c : ConnState) (u : User) (i : Nat)
    (h : (insertUser u F c).res = .ok i) :
    (insertUser u F c).trace =
      [.prepare insertSql, .execInsert u.name (bindAge u.age), .queryLastInsertId] ∧
    (bindAge u.age = none ↔ u.age = 0) ∧
    i = (insertUser u F c).conn.lastInsertId ∧
    lastIdFromRows [] = 0 := by
  have hiu : insertUser u = DbM.bind (prepareOp insertSql) (fun _ =>
      DbM.bind (execInsertOp u.name (bindAge u.age)) (fun _ =>
        DbM.bind queryLastIdOp (fun rows => DbM.pure (lastIdFromRows rows)))) := rfl
  rw [hiu] at h ⊢
  obtain ⟨a1, hp, h1, hc1, ht1⟩ := DbM.bind_ok h
  obtain ⟨a2, he, h2, hc2, ht2⟩ := DbM.bind_ok h1
  obtain ⟨rows, hq, h3, hc3, ht3⟩ := DbM.bind_ok h2
  obtain ⟨hFq, c2, hact, hcq⟩ :=
    @primOp_ok _ Event.queryLastInsertId
      (fun c => .ok ([c.lastInsertId], c)) _ _ _ hq
  refine ⟨?_, ?_, ?_, rfl⟩
  · rw [ht1, ht2, ht3, prepareOp_trace, execInsertOp_trace, queryLastIdOp_trace]
    rfl
  · unfold bindAge
    split <;> simp_all
  · have hrows : rows = [c2.lastInsertId] := by
      cases hact
      rfl
    have hi : i = lastIdFromRows rows := by
      simp [DbM.pure] at h3
      exact h3.symm
    rw [hc1, hc2, hc3]
    have hpc : (DbM.pure (lastIdFromRows rows) F (queryLastIdOp F
        (execInsertOp u.name (bindAge u.age) F (prepareOp insertSql F c).conn).conn).conn).conn =
        (queryLastIdOp F
          (execInsertOp u.name (bindAge u.age) F (prepareOp insertSql F c).conn).conn).conn := rfl
    have hcq' : (queryLastIdOp F
        (execInsertOp u.name (bindAge u.age) F (prepareOp insertSql F c).conn).conn).conn = c2 := hcq
    rw [hpc, hcq', hi, hrows]
    rfl

/-- Witness for C4: inserting (bob, 41) into `witnessConn` succeeds with
generated id 2 and the stated round-trip sequence. -/
theorem insertUser_spec_witness :
    (insertUser ⟨0, "bob", 41⟩ noFaults witnessConn).trace =
      [.prepare insertSql, .execInsert "bob" (bindAge 41), .queryLastInsertId] ∧
    2 = (insertUser ⟨0, "bob", 41⟩ noFaults witnessConn).conn.lastInsertId :=
  ⟨(insertUser_spec noFaults witnessConn ⟨0, "bob", 41⟩ 2 (by rfl)).1,
   (insertUser_spec noFaults witnessConn ⟨0, "bob", 41⟩ 2 (by rfl)).2.2.1⟩

/-- On success, the loop of `insertUsersBulk` executes the prepared insert
once per record, in input order. -/
theorem bulkLoop_trace_ok (us : List User) (F : Oracle) (c : ConnState)
    (h : (bulkLoop us F c).res = .ok ()) :
    (bulkLoop us F c).trace =
      us.map (fun u => .execInsert u.name (bindAge u.age)) := by
  induction us generalizing c with
  | nil => rfl
  | cons u rest ih =>
    have hb : bulkLoop (u :: rest) =
        DbM.bind (execInsertOp u.name (bindAge u.age)) (fun _ => bulkLoop rest) := rfl
    rw [hb] at h ⊢
    obtain ⟨a, he, h2, hc, ht⟩ := DbM.bind_ok h
    rw [ht, execInsertOp_trace, ih _ h2]
    rfl

/-- Claim C7: On every successful run over any record sequence,
`insertUsersBulk` compiles the insert statement once and then executes it
exactly once per record, in input order, binding each record's age
through the same `bindAge` convention as `insertUser` (age 0 becomes
NULL); and its round trips include no autocommit change, no commit and no
rollback — the operation does not itself open or close a transaction. -/
theorem insertUsersBulk_spec (F : Oracle) (c : ConnState) (us : List User)
    (h : (insertUsersBulk us F c).res = .ok ()) :
    (insertUsersBulk us F c).trace =
      .prepare insertSql :: us.map (fun u => .execInsert u.name (bindAge u.age)) ∧
    (∀ ev ∈ (insertUsersBulk us F c).trace,
      ev ≠ .setAutoCommit true ∧ ev ≠ .setAutoCommit false ∧
      ev ≠ .commit ∧ ev ≠ .rollback) := by
  have hb : insertUsersBulk us =
      DbM.bind (prepareOp insertSql) (fun _ => bulkLoop us) := rfl
  rw [hb] at h ⊢
  obtain ⟨a, hp, h2, hc, ht⟩ := DbM.bind_ok h
  have htr : (DbM.bind (prepareOp insertSql) (fun _ => bulkLoop us) F c).trace =
      .prepare insertSql :: us.map (fun u => .execInsert u.name (bindAge u.age)) := by
    rw [ht, prepareOp_trace, bulkLoop_trace_ok _ _ _ h2]
    rfl
  refine ⟨htr, ?_⟩
  rw [htr]
  intro ev hev
  rcases List.mem_cons.mp hev with rfl | hev
  · refine ⟨by simp, by simp, by simp, by simp⟩
  · obtain ⟨u, hu, rfl⟩ := List.mem_map.mp hev
    refine ⟨by simp, by simp, by simp, by simp⟩

/-- Witness for C7 at two concrete records (one with the sentinel age 0)
on `witnessConn`. -/
theorem insertUsersBulk_spec_witness :
    (insertUsersBulk [⟨0, "bob", 41⟩, ⟨0, "carol", 0⟩] noFaults witnessConn).trace =
      [.prepare insertSql, .execInsert "bob" (bindAge 41),
       .execInsert "carol" (bindAge 0)] :=
  (insertUsersBulk_spec noFaults witnessConn [⟨0, "bob", 41⟩, ⟨0, "carol", 0⟩]
    (by rfl)).1

/-- Updating the `users` table of schema `s` in an association list that
has an entry for `s`: the lookup afterwards yields the new table. -/
theorem find_setTable (l : List (String × TableState)) (s : String) (t : TableState)
    (h : (l.find? (fun p => p.1 == s)).isSome = true) :
    (l.map (fun p => if p.1 == s then (s, t) else p)).find? (fun p => p.1 == s) =
      some (s, t) := by
  induction l with
  | nil => simp at h
  | cons p rest ih =>
    by_cases hp : (p.1 == s) = true
    · rw [List.map_cons, if_pos hp]
      exact List.find?_cons_of_pos _ (by simp)
    · rw [List.find?_cons_of_neg (p := fun q : String × TableState => q.1 == s) _ hp] at h
      rw [List.map_cons, if_neg hp, List.find?_cons_of_neg (p := fun q : String × TableState => q.1 == s) _ hp]
      exact ih h

theorem getTable_setTable (st : ServerState) (s : String) (t : TableState)
    (h : (getTable st s).isSome = true) :
    getTable (setTable st s t) s = some t := by
  unfold getTable setTable at *
  rw [find_setTable st.tables s t ?_]
  · rfl
  · rcases hf : st.tables.find? (fun p => p.1 == s) with _ | p
    · rw [hf] at h
      simp at h
    · rw [hf]
      rfl

/-- Claim C6: Against a healthy server whose selected schema contains the
`users` table, `updateUserAgeByName` issues exactly one statement
compilation and one execution of the parameterized update, and returns
the number of rows whose name matches; when no row with the given name
exists it returns 0 without raising an error and leaves the `users`
table unchanged. -/
theorem updateUserAgeByName_spec (c : ConnState) (n : String) (a : Int)
    (s : String) (t : TableState)
    (hs : c.activeSchema = some s) (ht : getTable c.work s = some t) :
    (updateUserAgeByName n a noFaults c).res =
      .ok ((t.rows.filter (fun r => r.name == n)).length) ∧
    (updateUserAgeByName n a noFaults c).trace =
      [.prepare updateSql, .execUpdate a n] ∧
    ((∀ r ∈ t.rows, r.name ≠ n) →
      (updateUserAgeByName n a noFaults c).res = .ok 0 ∧
      getTable (updateUserAgeByName n a noFaults c).conn.work s = some t) := by
  have hrw : updateUserAgeByName n a =
      DbM.bind (prepareOp updateSql) (fun _ => execUpdateOp a n) := rfl
  rw [hrw]
  simp only [DbM.bind, prepareOp, execUpdateOp, primOp, noFaults, currentTable, hs, ht]
  refine ⟨trivial, rfl, ?_⟩
  intro hno
  have hfil : t.rows.filter (fun r => r.name == n) = [] := by
    rw [List.filter_eq_nil_iff]
    intro r hr
    simp [hno r hr]
  have hrows : t.rows.map
      (fun r => if r.name == n then { r with age := some a } else r) = t.rows := by
    have := List.map_congr_left (l := t.rows)
      (g := id)
      (f := fun r : Row => if r.name == n then { r with age := some a } else r)
      (fun r hr => by simp [hno r hr])
    simpa using this
  rw [hfil, hrows]
  refine ⟨rfl, ?_⟩
  show getTable (applyDml _ s ⟨t.rows, t.nextId⟩).work s = some t
  have : (⟨t.rows, t.nextId⟩ : TableState) = t := rfl
  rw [this]
  show getTable (setTable _ s t) s = some t
  exact getTable_setTable _ s t (by rw [ht]; rfl)

/-- Witness for C6: updating a non-existent name (`zoe`) on `witnessConn`
returns affected-count 0 and leaves the table unchanged. -/
theorem updateUserAgeByName_spec_witness :
    (updateUserAgeByName "zoe" 50 noFaults witnessConn).res = .ok 0 ∧
    getTable (updateUserAgeByName "zoe" 50 noFaults witnessConn).conn.work "testdb" =
      some ⟨[⟨1, "alice", some 30⟩], 2⟩ :=
  (updateUserAgeByName_spec witnessConn "zoe" 50 "testdb" ⟨[⟨1, "alice", some 30⟩], 2⟩
    rfl rfl).2.2 (by decide)

/-- Claim C10: `updateUserAgeByName` does not apply the age==0-means-NULL
convention: it always binds the new age as an integer, so updating a
row's age to 0 stores a literal 0 (`some 0`), never NULL — asymmetric
with the insert paths, whose shared `bindAge` maps 0 to NULL (`none`)
and any nonzero age to itself. -/
theorem updateAgeByName_no_sentinel_convention (c : ConnState) (n : String)
    (s : String) (t : TableState)
    (hs : c.activeSchema = some s) (ht : getTable c.work s = some t) :
    (∃ t2, getTable (updateUserAgeByName n 0 noFaults c).conn.work s = some t2 ∧
      ∀ r ∈ t2.rows, r.name = n → r.age = some 0) ∧
    bindAge 0 = none ∧
    (∀ a : Int, a ≠ 0 → bindAge a = some a) := by
  have hrw : updateUserAgeByName n 0 =
      DbM.bind (prepareOp updateSql) (fun _ => execUpdateOp 0 n) := rfl
  rw [hrw]
  simp only [DbM.bind, prepareOp, execUpdateOp, primOp, noFaults, currentTable, hs, ht]
  refine ⟨⟨⟨t.rows.map
      (fun r => if r.name == n then { r with age := some 0 } else r), t.nextId⟩,
      ?_, ?_⟩, rfl, fun a ha => by simp [bindAge, ha]⟩
  · exact getTable_setTable _ s _ (by rw [ht]; rfl)
  · intro r hr hname
    obtain ⟨r0, hr0, rfl⟩ := List.mem_map.mp hr
    by_cases h0 : (r0.name == n) = true
    · simp only [if_pos h0]
    · simp only [if_neg h0] at hname ⊢
      rw [hname] at h0
      simp at h0

/-- Witness for C10: updating `alice` (present in `witnessConn`) to age 0
stores the literal `some 0`, while the insert-side binding of age 0 is
NULL. -/
theorem updateAgeByName_no_sentinel_convention_witness :
    (∃ t2, getTable (updateUserAgeByName "alice" 0 noFaults witnessConn).conn.work
        "testdb" = some t2 ∧
      ∀ r ∈ t2.rows, r.name = "alice" → r.age = some 0) ∧
    bindAge 0 = none :=
  ⟨(updateAgeByName_no_sentinel_convention witnessConn "alice" "testdb"
      ⟨[⟨1, "alice", some 30⟩], 2⟩ rfl rfl).1,
   (updateAgeByName_no_sentinel_convention witnessConn "alice" "testdb"
      ⟨[⟨1, "alice", some 30⟩], 2⟩ rfl rfl).2.1⟩

/-- Lookup `getTable` ignores the schema list. -/
theorem getTable_addSchema (st : ServerState) (l : List String) (s : String) :
    getTable { st with schemas := l } s = getTable st s := rfl

/-- Appending a `users` table for a schema that had none makes the lookup
find exactly that table. -/
theorem getTable_append_of_none (st : ServerState) (s : String) (t : TableState)
    (h : getTable st s = none) :
    getTable { st with tables := st.tables ++ [(s, t)] } s = some t := by
  unfold getTable at *
  have hf : st.tables.find? (fun p => p.1 == s) = none := by
    rcases hf : st.tables.find? (fun p => p.1 == s) with _ | p
    · exact hf
    · rw [hf] at h
      cases h
  show ((st.tables ++ [(s, t)]).find? (fun p => p.1 == s)).map (fun p => p.2) = some t
  rw [List.find?_append, hf]
  simp

/-- The function adding a schema name (effect of `CREATE DATABASE`). -/
def addSchemaFn (s : String) : ServerState → ServerState :=
  fun st => { st with schemas := st.schemas ++ [s] }

/-- The function adding an empty `users` table under schema `s` (effect of
`CREATE TABLE`). -/
def addTableFn (s : String) : ServerState → ServerState :=
  fun st => { st with tables := st.tables ++ [(s, ⟨[], 1⟩)] }

/-- Net effect of one bootstrapper run on the connection (used only to
state `ensure_run_eq`): schema added if absent, schema selected, table
added if absent, three round trips. -/
def ensureNet (s : String) (c : ConnState) : ConnState :=
  let w1 := if s ∈ c.work.schemas then c.work else addSchemaFn s c.work
  let k1 := if s ∈ c.work.schemas then c.committed else addSchemaFn s c.committed
  let w2 := if (getTable w1 s).isSome then w1 else addTableFn s w1
  let k2 := if (getTable w1 s).isSome then k1 else addTableFn s k1
  ⟨k2, w2, c.autocommit, some s, c.lastInsertId, c.opCount + 3⟩

/-- One run of `ensureSchemaAndTables` with a non-empty schema name on a
healthy server succeeds, with the net state effect `ensureNet`. -/
theorem ensure_run_eq (c : ConnState) (s : String) (hs : s ≠ "") :
    ensureSchemaAndTables s noFaults c =
      ⟨.ok (), ensureNet s c, [.createDb s, .useSchema s, .createUsersTable],
        [], []⟩ := by
  have hrw : ensureSchemaAndTables s =
      DbM.bind (createDbOp s) (fun _ =>
        DbM.bind (setSchemaOp s) (fun _ => createTableOp)) := rfl
  rw [hrw]
  by_cases hm : s ∈ c.work.schemas <;>
    rcases htb : getTable c.work s with _ | t0 <;>
      simp_all [DbM.bind, createDbOp, setSchemaOp, createTableOp, primOp, noFaults,
        applyDdl, ensureNet, addSchemaFn, addTableFn, getTable_addSchema,
        DbOutcome.mk.injEq, ConnState.mk.injEq]

theorem ensureNet_activeSchema (s : String) (c : ConnState) :
    (ensureNet s c).activeSchema = some s := rfl

theorem ensureNet_mem_schemas (s : String) (c : ConnState) :
    s ∈ (ensureNet s c).work.schemas := by
  by_cases hm : s ∈ c.work.schemas <;>
    simp [ensureNet, addSchemaFn, addTableFn, hm,
      apply_ite (fun st : ServerState => st.schemas)]

theorem ensureNet_table_isSome (s : String) (c : ConnState) :
    (getTable (ensureNet s c).work s).isSome = true := by
  rcases ht : getTable (if s ∈ c.work.schemas then c.work else addSchemaFn s c.work) s
    with _ | t0
  · simp [ensureNet, ht, getTable_append_of_none _ _ _ ht, addTableFn]
  · simp [ensureNet, ht]

/-- On a connection already fully set up for schema `s`, the net effect of
a bootstrapper run is only the three round trips. -/
theorem ensureNet_established (s : String) (c : ConnState)
    (hm : s ∈ c.work.schemas) (ht : (getTable c.work s).isSome = true)
    (ha : c.activeSchema = some s) :
    ensureNet s c = { c with opCount := c.opCount + 3 } := by
  simp [ensureNet, hm, ht, ConnState.mk.injEq, ha]

/-- A bootstrapper run never drops or replaces an existing `users` table. -/
theorem ensureNet_preserves_table (s : String) (c : ConnState) (t0 : TableState)
    (h0 : getTable c.work s = some t0) :
    getTable (ensureNet s c).work s = some t0 := by
  by_cases hm : s ∈ c.work.schemas <;>
    simp [ensureNet, addSchemaFn, getTable_addSchema, hm, h0]

/-- Claim C8: The schema bootstrapper is idempotent: with a non-empty schema
name, on a healthy server, both a first and an immediately repeated run
succeed; the repeated run leaves the connection state identical except
for the three round trips it costs (no duplicate schema, table or
columns); and a run never drops or alters an existing `users` table's
data. -/
theorem ensureSchemaAndTables_idempotent (c : ConnState) (s : String) (hs : s ≠ "") :
    (ensureSchemaAndTables s noFaults c).res = .ok () ∧
    (ensureSchemaAndTables s noFaults
        (ensureSchemaAndTables s noFaults c).conn).res = .ok () ∧
    (ensureSchemaAndTables s noFaults
        (ensureSchemaAndTables s noFaults c).conn).conn =
      { (ensureSchemaAndTables s noFaults c).conn with
          opCount := (ensureSchemaAndTables s noFaults c).conn.opCount + 3 } ∧
    (∀ t0, getTable c.work s = some t0 →
      getTable (ensureSchemaAndTables s noFaults c).conn.work s = some t0) := by
  have h1 := ensure_run_eq c s hs
  have h2 := ensure_run_eq (ensureNet s c) s hs
  rw [h1]
  dsimp only
  rw [h2]
  dsimp only
  refine ⟨rfl, rfl, ?_, ?_⟩
  · exact ensureNet_established s (ensureNet s c) (ensureNet_mem_schemas s c)
      (ensureNet_table_isSome s c) (ensureNet_activeSchema s c)
  · intro t0 h0
    exact ensureNet_preserves_table s c t0 h0

/-- Witness for C8 on a fresh connection to an empty server. -/
theorem ensureSchemaAndTables_idempotent_witness :
    (ensureSchemaAndTables "testdb" noFaults (connOf initialServer)).res = .ok () ∧
    (ensureSchemaAndTables "testdb" noFaults
        (ensureSchemaAndTables "testdb" noFaults (connOf initialServer)).conn).res =
      .ok () ∧
    (ensureSchemaAndTables "testdb" noFaults
        (ensureSchemaAndTables "testdb" noFaults (connOf initialServer)).conn).conn =
      { (ensureSchemaAndTables "testdb" noFaults (connOf initialServer)).conn with
          opCount := (ensureSchemaAndTables "testdb" noFaults
            (connOf initialServer)).conn.opCount + 3 } ∧
    (∀ t0, getTable (connOf initialServer).work "testdb" = some t0 →
      getTable (ensureSchemaAndTables "testdb" noFaults
        (connOf initialServer)).conn.work "testdb" = some t0) :=
  ensureSchemaAndTables_idempotent (connOf initialServer) "testdb" (by decide)

instance : IsTotal Row rowLE := ⟨by
  intro r s
  unfold rowLE
  rcases hr : r.age with _ | a <;> rcases hs : s.age with _ | b
  · rcases Nat.le_total r.id s.id with h | h
    · exact Or.inl (Or.inr ⟨rfl, h⟩)
    · exact Or.inr (Or.inr ⟨rfl, h⟩)
  · exact Or.inr (Or.inl rfl)
  · exact Or.inl (Or.inl rfl)
  · rcases lt_trichotomy a b with h | h | h
    · exact Or.inr (Or.inl (by simpa [ageLtB] using h))
    · subst h
      rcases Nat.le_total r.id s.id with hid | hid
      · exact Or.inl (Or.inr ⟨rfl, hid⟩)
      · exact Or.inr (Or.inr ⟨rfl, hid⟩)
    · exact Or.inl (Or.inl (by simpa [ageLtB] using h))⟩

instance : IsTrans Row rowLE := ⟨by
  intro r s t hrs hst
  unfold rowLE at *
  rcases hr : r.age with _ | a <;> rcases hs : s.age with _ | b <;>
    rcases ht : t.age with _ | d <;>
      (try simp [ageLtB, hr, hs, ht] at hrs hst ⊢) <;> omega⟩

/-- One healthy run of `getUsersByMinAge` over a selected schema holding
table `t`: it compiles the select, executes it, and fully materializes
the filtered, ordered rows into `User` values. -/
theorem getUsersByMinAge_eq (minAge : Int) (c : ConnState) (s : String)
    (t : TableState) (hs : c.activeSchema = some s)
    (ht : getTable c.work s = some t) :
    getUsersByMinAge minAge noFaults c =
      ⟨.ok ((List.insertionSort rowLE
          (t.rows.filter (rowMatchesMinAge minAge))).map rowToUser),
        { c with opCount := c.opCount + 2 },
        [.prepare selectSql, .querySelect minAge], [], []⟩ := by
  have hrw : getUsersByMinAge minAge =
      DbM.bind (prepareOp selectSql) (fun _ =>
        DbM.bind (querySelectOp minAge) (fun rows =>
          DbM.pure (rows.map rowToUser))) := rfl
  rw [hrw]
  simp [DbM.bind, DbM.pure, prepareOp, primOp, noFaults, querySelectOp,
    currentTable, hs, ht, DbOutcome.mk.injEq, ConnState.mk.injEq]

/-- The relation `rowLE` (the model of `ORDER BY age DESC, id ASC`) transported to the
materialized `User` values, for rows that passed the `age >= minAge`
filter (and therefore have a non-NULL age). -/
theorem rowLE_toUser {minAge : Int} {a b : Row}
    (ha : rowMatchesMinAge minAge a = true)
    (hb : rowMatchesMinAge minAge b = true) (hab : rowLE a b) :
    (rowToUser b).age < (rowToUser a).age ∨
      ((rowToUser b).age = (rowToUser a).age ∧
        (rowToUser a).id ≤ (rowToUser b).id) := by
  rcases haa : a.age with _ | x
  · simp [rowMatchesMinAge, haa] at ha
  rcases hbb : b.age with _ | y
  · simp [rowMatchesMinAge, hbb] at hb
  unfold rowLE at hab
  rw [haa, hbb] at hab
  simp [ageLtB] at hab
  simp [rowToUser, haa, hbb]
  rcases hab with h | ⟨h1, h2⟩
  · exact Or.inl h
  · exact Or.inr ⟨h1, h2⟩

/-- Shared characterization of a healthy `getUsersByMinAge` run: the
returned list is ordered by age descending with id-ascending tie-break,
is a permutation of the filtered stored rows materialized through the
row conversion, and the row conversion surfaces NULL as 0. -/
theorem getUsersByMinAge_props (c : ConnState) (minAge : Int) (s : String)
    (t : TableState) (hs : c.activeSchema = some s)
    (ht : getTable c.work s = some t) :
    ∃ out, (getUsersByMinAge minAge noFaults c).res = .ok out ∧
      out.Pairwise (fun u v : User =>
        v.age < u.age ∨ (v.age = u.age ∧ u.id ≤ v.id)) ∧
      out.Perm ((t.rows.filter (rowMatchesMinAge minAge)).map rowToUser) ∧
      (∀ r : Row, r.age = none → rowToUser r = ⟨r.id, r.name, 0⟩) := by
  refine ⟨(List.insertionSort rowLE
      (t.rows.filter (rowMatchesMinAge minAge))).map rowToUser, ?_, ?_, ?_, ?_⟩
  · rw [getUsersByMinAge_eq minAge c s t hs ht]
  · apply List.pairwise_map.mpr
    apply List.Pairwise.imp_of_mem ?_ (List.sorted_insertionSort rowLE _)
    intro a b haS hbS hab
    have ha : rowMatchesMinAge minAge a = true :=
      (List.mem_filter.mp ((List.mem_insertionSort rowLE).mp haS)).2
    have hb : rowMatchesMinAge minAge b = true :=
      (List.mem_filter.mp ((List.mem_insertionSort rowLE).mp hbS)).2
    exact rowLE_toUser ha hb hab
  · exact (List.perm_insertionSort rowLE _).map rowToUser
  · intro r hr
    simp [rowToUser, hr]

/-- Claim C5: Against a healthy server whose selected schema holds table
`t`, `selectByMinAge` returns a fully materialized finite list: it is
ordered by age descending with ties broken by identifier ascending, it
is (up to that ordering) exactly the stored rows satisfying the SQL
filter `age >= minAge` materialized through the row conversion, and the
row conversion surfaces a stored NULL age as the sentinel 0. -/
theorem getUsersByMinAge_spec (c : ConnState) (minAge : Int) (s : String)
    (t : TableState) (hs : c.activeSchema = some s)
    (ht : getTable c.work s = some t) :
    ∃ out, (getUsersByMinAge minAge noFaults c).res = .ok out ∧
      out.Pairwise (fun u v : User =>
        v.age < u.age ∨ (v.age = u.age ∧ u.id ≤ v.id)) ∧
      out.Perm ((t.rows.filter (rowMatchesMinAge minAge)).map rowToUser) ∧
      (∀ r : Row, r.age = none → rowToUser r = ⟨r.id, r.name, 0⟩) :=
  getUsersByMinAge_props c minAge s t hs ht

/-- The concrete scenario of the spec's example: stored rows
(bob,31), (carol,32), (alice,25) with ids 1, 2, 3. -/
def exampleConn : ConnState :=
  ⟨⟨["testdb"], [("testdb",
      ⟨[⟨1, "bob", some 31⟩, ⟨2, "carol", some 32⟩, ⟨3, "alice", some 25⟩], 4⟩)]⟩,
   ⟨["testdb"], [("testdb",
      ⟨[⟨1, "bob", some 31⟩, ⟨2, "carol", some 32⟩, ⟨3, "alice", some 25⟩], 4⟩)]⟩,
   true, some "testdb", 0, 0⟩

/-- Witness for C5 on the spec's own example: `selectByMinAge(25)` over
rows (bob,31), (carol,32), (alice,25) yields carol, bob, alice. -/
theorem getUsersByMinAge_spec_witness :
    (∃ out, (getUsersByMinAge 25 noFaults exampleConn).res = .ok out ∧
      out.Pairwise (fun u v : User =>
        v.age < u.age ∨ (v.age = u.age ∧ u.id ≤ v.id)) ∧
      out.Perm (((⟨[⟨1, "bob", some 31⟩, ⟨2, "carol", some 32⟩,
          ⟨3, "alice", some 25⟩], 4⟩ : TableState).rows.filter
            (rowMatchesMinAge 25)).map rowToUser) ∧
      (∀ r : Row, r.age = none → rowToUser r = ⟨r.id, r.name, 0⟩)) ∧
    (getUsersByMinAge 25 noFaults exampleConn).res =
      .ok [⟨2, "carol", 32⟩, ⟨1, "bob", 31⟩, ⟨3, "alice", 25⟩] :=
  ⟨getUsersByMinAge_spec exampleConn 25 "testdb"
      ⟨[⟨1, "bob", some 31⟩, ⟨2, "carol", some 32⟩, ⟨3, "alice", some 25⟩], 4⟩
      rfl rfl,
   by rfl⟩

/-- One healthy run of `insertUser` with a fresh name over a selected
schema holding table `t`: the row is appended with id `t.nextId`
(age bound through `bindAge`), `LAST_INSERT_ID()` is read back, and that
id is returned. -/
theorem insertUser_run_eq (c : ConnState) (u : User) (s : String) (t : TableState)
    (hs : c.activeSchema = some s) (ht : getTable c.work s = some t)
    (hfresh : ∀ r ∈ t.rows, r.name ≠ u.name) :
    insertUser u noFaults c =
      ⟨.ok t.nextId,
       ⟨(if c.autocommit
           then setTable c.work s
             ⟨t.rows ++ [⟨t.nextId, u.name, bindAge u.age⟩], t.nextId + 1⟩
           else c.committed),
        setTable c.work s
          ⟨t.rows ++ [⟨t.nextId, u.name, bindAge u.age⟩], t.nextId + 1⟩,
        c.autocommit, c.activeSchema, t.nextId, c.opCount + 3⟩,
       [.prepare insertSql, .execInsert u.name (bindAge u.age),
        .queryLastInsertId], [], []⟩ := by
  have hany : t.rows.any (fun r => r.name == u.name) = false := by
    rw [List.any_eq_false]
    intro r hr
    simp [hfresh r hr]
  have hrw : insertUser u = DbM.bind (prepareOp insertSql) (fun _ =>
      DbM.bind (execInsertOp u.name (bindAge u.age)) (fun _ =>
        DbM.bind queryLastIdOp (fun rows => DbM.pure (lastIdFromRows rows)))) := rfl
  rw [hrw]
  simp [DbM.bind, DbM.pure, prepareOp, execInsertOp, queryLastIdOp, primOp,
    noFaults, currentTable, applyDml, hs, ht, hany, lastIdFromRows,
    DbOutcome.mk.injEq, ConnState.mk.injEq]

/-- A fresh empty `users` table in schema `testdb`, as left behind by a
bootstrap followed by `DELETE FROM users` on a new server. -/
def emptyTableConn : ConnState :=
  ⟨⟨["testdb"], [("testdb", ⟨[], 1⟩)]⟩,
   ⟨["testdb"], [("testdb", ⟨[], 1⟩)]⟩,
   true, some "testdb", 0, 0⟩

/-- Claim C2, counterexample: The claim fails for a record whose age is the
sentinel 0: inserting (dave, age 0) into an empty table succeeds with the
fresh id 1, but the follow-up `selectByMinAge(0)` returns the empty list —
no record with the same name is returned at all, because the row's age
was stored as SQL NULL and `WHERE age >= 0` filters NULL out. -/
theorem sentinel_age_roundtrip_cex :
    (insertUser ⟨0, "dave", 0⟩ noFaults emptyTableConn).res = .ok 1 ∧
    (getUsersByMinAge 0 noFaults
      (insertUser ⟨0, "dave", 0⟩ noFaults emptyTableConn).conn).res =
        .ok ([] : List User) :=
  ⟨rfl, rfl⟩

/-- Claim C2, amended: For every valid record with a unique name and a
positive age, `insertOne` followed by `selectByMinAge(0)` returns a record
with the same name and age and the freshly assigned positive identifier.
A record whose age is the sentinel 0 (age omitted) is persisted with its
age stored as NULL, and is not returned by `selectByMinAge(0)` at all:
the SQL filter `age >= 0` excludes NULL ages, so the sentinel never
surfaces through this read path. -/
theorem insert_select_roundtrip_amended (c : ConnState) (u : User) (s : String)
    (t : TableState) (hs : c.activeSchema = some s)
    (ht : getTable c.work s = some t)
    (hfresh : ∀ r ∈ t.rows, r.name ≠ u.name) (hnext : 1 ≤ t.nextId) :
    (0 < u.age →
      (insertUser u noFaults c).res = .ok t.nextId ∧ 0 < t.nextId ∧
      ∃ out, (getUsersByMinAge 0 noFaults
          (insertUser u noFaults c).conn).res = .ok out ∧
        (⟨t.nextId, u.name, u.age⟩ : User) ∈ out) ∧
    (u.age = 0 →
      (insertUser u noFaults c).res = .ok t.nextId ∧
      (∃ t2, getTable (insertUser u noFaults c).conn.work s = some t2 ∧
        (⟨t.nextId, u.name, none⟩ : Row) ∈ t2.rows) ∧
      ∃ out, (getUsersByMinAge 0 noFaults
          (insertUser u noFaults c).conn).res = .ok out ∧
        ∀ v ∈ out, v.name ≠ u.name) := by
  have hrun := insertUser_run_eq c u s t hs ht hfresh
  have ht2 : getTable (insertUser u noFaults c).conn.work s =
      some ⟨t.rows ++ [⟨t.nextId, u.name, bindAge u.age⟩], t.nextId + 1⟩ := by
    rw [hrun]
    exact getTable_setTable _ s _ (by rw [ht]; rfl)
  have hact : (insertUser u noFaults c).conn.activeSchema = some s := by
    rw [hrun]
    exact hs
  constructor
  · intro hpos
    have hbind : bindAge u.age = some u.age := by
      unfold bindAge
      rw [if_neg (by omega)]
    refine ⟨by rw [hrun], by omega, ?_⟩
    rw [hbind] at ht2
    obtain ⟨out, hres, hpair, hperm, hconv⟩ :=
      getUsersByMinAge_props (insertUser u noFaults c).conn 0 s _ hact ht2
    refine ⟨out, hres, ?_⟩
    have hmem : (⟨t.nextId, u.name, some u.age⟩ : Row) ∈
        ((⟨t.rows ++ [⟨t.nextId, u.name, some u.age⟩], t.nextId + 1⟩ :
          TableState).rows.filter (rowMatchesMinAge 0)) := by
      rw [List.mem_filter]
      constructor
      · simp
      · simp [rowMatchesMinAge]
        omega
    have : rowToUser ⟨t.nextId, u.name, some u.age⟩ ∈
        ((⟨t.rows ++ [⟨t.nextId, u.name, some u.age⟩], t.nextId + 1⟩ :
          TableState).rows.filter (rowMatchesMinAge 0)).map rowToUser :=
      List.mem_map_of_mem rowToUser hmem
    have hmem2 := hperm.mem_iff.mpr this
    simpa [rowToUser] using hmem2
  · intro hzero
    have hbind : bindAge u.age = none := by
      unfold bindAge
      rw [if_pos hzero]
    refine ⟨by rw [hrun], ⟨_, ht2, ?_⟩, ?_⟩
    · rw [hbind]
      simp
    · obtain ⟨out, hres, hpair, hperm, hconv⟩ :=
        getUsersByMinAge_props (insertUser u noFaults c).conn 0 s _ hact ht2
      refine ⟨out, hres, ?_⟩
      intro v hv
      have hvf := hperm.mem_iff.mp hv
      obtain ⟨r, hrf, rfl⟩ := List.mem_map.mp hvf
      have hrmem := List.mem_filter.mp hrf
      rcases List.mem_append.mp hrmem.1 with hold | hnew
      · exact hfresh r hold
      · rw [hbind] at hnew
        rcases List.mem_singleton.mp hnew with rfl
        have := hrmem.2
        simp [rowMatchesMinAge] at this

/-- Witness for the amended C2: inserting (erin, 33) into an empty table
yields id 1 and `selectByMinAge(0)` returns a record (1, erin, 33). -/
theorem insert_select_roundtrip_amended_witness :
    (insertUser ⟨0, "erin", 33⟩ noFaults emptyTableConn).res = .ok 1 ∧ 0 < 1 ∧
    ∃ out, (getUsersByMinAge 0 noFaults
        (insertUser ⟨0, "erin", 33⟩ noFaults emptyTableConn).conn).res = .ok out ∧
      (⟨1, "erin", 33⟩ : User) ∈ out :=
  (insert_select_roundtrip_amended emptyTableConn ⟨0, "erin", 33⟩ "testdb" ⟨[], 1⟩
    rfl rfl (by simp) (by decide)).1 (by decide)

/-- The oracle that fails the very first round trip (`driver->connect`)
with a database error. -/
def connectFault : Oracle :=
  fun n => if n = 0 then some (.sqlErr ⟨"Access denied", 1045, "28000"⟩) else none

/-- Claim C9: For every fault oracle and initial server state, the driver's
exit code is 0 or 1; it is 0 exactly when the whole body ran without an
unrecovered error (failures of the transaction demo are recovered inside
the body and do not reach the exit code); and whenever it is 1, the last
line on the error stream is a labeled diagnostic — either the
`printSqlError` line tagged `main` for a database error, or the
`[STD ERROR]` line for a generic runtime error. On a fresh fault-free
server the driver exits 0. -/
theorem main_exit_code_spec (F : Oracle) (srv : ServerState) :
    ((mainRun F srv).exitCode = 0 ∨ (mainRun F srv).exitCode = 1) ∧
    ((mainRun F srv).exitCode = 0 ↔ (mainBody F (connOf srv)).res = .ok ()) ∧
    ((mainRun F srv).exitCode = 1 →
      ∃ last, (mainRun F srv).err.getLast? = some last ∧
        ((∃ e, last = sqlErrorLine e "main") ∨
         (∃ m, last = "[STD ERROR] " ++ m))) ∧
    (mainRun noFaults initialServer).exitCode = 0 := by
  refine ⟨?_, ?_, ?_, by rfl⟩
  · unfold mainRun
    rcases hm : (mainBody F (connOf srv)).res with e | a
    · rcases e with e | m <;> simp [hm]
    · simp [hm]
  · unfold mainRun
    rcases hm : (mainBody F (connOf srv)).res with e | a
    · rcases e with e | m <;> simp [hm]
    · cases a
      simp [hm]
  · unfold mainRun
    rcases hm : (mainBody F (connOf srv)).res with e | a
    · rcases e with e | m <;> simp only [hm] <;> intro h1
      · exact ⟨sqlErrorLine e "main",
          by rw [List.getLast?_concat], Or.inl ⟨e, rfl⟩⟩
      · exact ⟨"[STD ERROR] " ++ m,
          by rw [List.getLast?_concat], Or.inr ⟨m, rfl⟩⟩
    · simp [hm]

/-- Witness for C9: the fault-free run exits 0; a run whose `connect`
fails exits 1 with the tagged diagnostic as the last error line. -/
theorem main_exit_code_spec_witness :
    (mainRun noFaults initialServer).exitCode = 0 ∧
    (∃ last, (mainRun connectFault initialServer).err.getLast? = some last ∧
      ((∃ e, last = sqlErrorLine e "main") ∨
       (∃ m, last = "[STD ERROR] " ++ m))) :=
  ⟨(main_exit_code_spec noFaults initialServer).2.2.2,
   (main_exit_code_spec connectFault initialServer).2.2.1 (by rfl)⟩
